import Mathlib

/-!
Shallow embedding of the adk-web-api repository.

Source files embedded:
* `src/main.py` — the websocket endpoint and the stream multiplexer
  `process_and_send_agent_events`.
* `src/response_agent/agent.py` — the persistence tool
  `save_response_to_file_and_db` and the agent graph (`gather_concurrently`,
  `root_agent`).

Python events are duck-typed objects probed with `hasattr`/`getattr`; we model
them as a structure whose fields mirror the probed attributes (an absent
attribute is the default the code supplies: `False` for the flags, `None` for
`content`).
-/

namespace ADKWeb

/-- One part of an event's content.  In `src/main.py` the code probes
`hasattr(part, 'text') and part.text`: `text = none` models an absent
attribute, `some ""` a present but falsy (empty) text. -/
structure MPart where
  text : Option String
deriving DecidableEq, Repr

/-- The `content` attribute of an event: a list of parts.  An empty list is
falsy in Python, which the code relies on (`event_content.parts` truthiness). -/
structure MContent where
  parts : List MPart
deriving DecidableEq, Repr

/-- An ADK event as observed by `process_and_send_agent_events`
(src/main.py lines 66-93): the code reads `turn_complete`, `interrupted`,
`content` (default `None`) and `partial` (default `False`, modelled here as
the field `partialFlag`). -/
structure Event where
  turn_complete : Bool
  interrupted : Bool
  content : Option MContent
  partialFlag : Bool
deriving DecidableEq, Repr

/-- A framed message written to the websocket by `process_and_send_agent_events`
(each constructor is one of the `json.dumps` payloads in src/main.py). -/
inductive Frame where
  /-- `{"message": s}` (lines 69, 78). -/
  | message (s : String)
  /-- `{"turn_complete": true}` (lines 72, 99). -/
  | turnComplete
  /-- `{"message": s, "turn_complete": true}` (line 96). -/
  | messageTurnComplete (s : String)
  /-- `{"interrupted": true, "turn_complete": true}` (line 81). -/
  | interruptedTurnComplete
  /-- `{"error": e, "turn_complete": true}` (line 109). -/
  | errorTurnComplete (s : String)
deriving DecidableEq, Repr

/-- Whether a frame carries `turn_complete: true` (a terminal frame). -/
def Frame.hasTurnCompleteFlag : Frame → Bool
  | .message _ => false
  | .turnComplete => true
  | .messageTurnComplete _ => true
  | .interruptedTurnComplete => true
  | .errorTurnComplete _ => true

/-- Whether a frame carries `interrupted: true`. -/
def Frame.hasInterruptedFlag : Frame → Bool
  | .message _ => false
  | .turnComplete => false
  | .messageTurnComplete _ => false
  | .interruptedTurnComplete => true
  | .errorTurnComplete _ => false

/-- The `message` field a frame carries (empty when it has none). -/
def Frame.messageText : Frame → String
  | .message s => s
  | .turnComplete => ""
  | .messageTurnComplete s => s
  | .interruptedTurnComplete => ""
  | .errorTurnComplete _ => ""

/-- The buffer update performed by one non-terminal loop iteration of
`process_and_send_agent_events` (src/main.py lines 85-92): the text of the
FIRST part is appended to the buffer exactly when `content` is truthy, its
`parts` list is non-empty, the event is marked `partial`, and the first part
has a truthy `text`. -/
def bufferStep (event : Event) (buffer : String) : String :=
  match event.content with
  | none => buffer
  | some c =>
    match c.parts with
    | [] => buffer
    | p :: _ =>
      if event.partialFlag then
        match p.text with
        | some t => if t = "" then buffer else buffer ++ t
        | none => buffer
      else buffer

/-- The frames that flush a non-empty buffer (src/main.py lines 68-71 and
77-80: `if current_message_buffer: send {"message": buffer}`). -/
def flushFrames (buffer : String) : List Frame :=
  if buffer = "" then [] else [Frame.message buffer]

/-- `process_and_send_agent_events` (src/main.py lines 59-100), as the list of
frames it sends for a given event stream and initial buffer.  On a
`turn_complete` event: flush, send `{"turn_complete": true}`, return.  On an
`interrupted` event: flush, send `{"interrupted": true, "turn_complete": true}`,
return.  Otherwise buffer the event's first-part partial text.  When the stream
ends: a non-empty buffer is sent as one combined
`{"message": buffer, "turn_complete": true}` frame, an empty one as
`{"turn_complete": true}`. -/
def processEvents : List Event → String → List Frame
  | [], buffer =>
    if buffer = "" then [Frame.turnComplete]
    else [Frame.messageTurnComplete buffer]
  | event :: rest, buffer =>
    if event.turn_complete then
      flushFrames buffer ++ [Frame.turnComplete]
    else if event.interrupted then
      flushFrames buffer ++ [Frame.interruptedTurnComplete]
    else
      processEvents rest (bufferStep event buffer)

/-- Number of terminal frames (frames with `turn_complete` set) in an output. -/
def terminalFrameCount (frames : List Frame) : Nat :=
  (frames.filter Frame.hasTurnCompleteFlag).length

/-- Concatenation of all message text flushed by an output. -/
def flushedText (frames : List Frame) : String :=
  (frames.map Frame.messageText).foldr (· ++ ·) ""

/-- Concatenation of a list of text fragments, in order. -/
def concatFragments : List String → String
  | [] => ""
  | t :: ts => t ++ concatFragments ts

/-- A partial-text event carrying the fragment `t` as the text of its single
content part. -/
def mkPartialTextEvent (t : String) : Event :=
  { turn_complete := false, interrupted := false,
    content := some { parts := [{ text := some t }] }, partialFlag := true }

/-- A plain turn-complete event. -/
def mkTurnCompleteEvent : Event :=
  { turn_complete := true, interrupted := false, content := none,
    partialFlag := false }

/-- A plain interrupted event. -/
def mkInterruptedEvent : Event :=
  { turn_complete := false, interrupted := true, content := none,
    partialFlag := false }

/-- One item of the serialized activity on a websocket connection: a user
message received, or a frame sent. -/
inductive TraceItem where
  | received (msg : String)
  | sent (f : Frame)
deriving DecidableEq, Repr

/-- The per-connection loop of `websocket_endpoint` (src/main.py lines
138-156): each iteration `await`s `receive_text`, starts the runner on the
received message, and `await`s `process_and_send_agent_events` to completion
before looping.  `turns` pairs each received user message with the event
stream the runner produces for that turn; the sequential `await` structure of
the source is embedded as sequential trace concatenation. -/
def sessionLoop : List (String × List Event) → List TraceItem
  | [] => []
  | (msg, events) :: rest =>
    TraceItem.received msg
      :: ((processEvents events "").map TraceItem.sent ++ sessionLoop rest)

/-- A Firestore document as assembled by `save_response_to_file_and_db`
(src/response_agent/agent.py lines 89-94): the target collection and the two
data fields (the server timestamp is set by the backend, not the code). -/
structure DocRecord where
  collection : String
  agent_name : String
  response_content : String
deriving DecidableEq, Repr

/-- An external side effect the tool could perform.  `fileWrite` is in the
vocabulary because the tool's name and docstring speak of writing a file; the
embedded body never produces it, mirroring the source. -/
inductive Effect where
  | firestoreAdd (doc : DocRecord)
  | fileWrite (path : String) (content : String)
deriving DecidableEq, Repr

/-- The Firestore client held in the module-level `db`
(src/response_agent/agent.py lines 65-72).  `addResult` models
`collection.add`: `.ok id` is a successful write returning the new document
id, `.error e` the exception message `str(e)` when the write raises. -/
structure FirestoreClient where
  addResult : DocRecord → Except String String

/-- Result of one invocation of the tool: the string it returns and the
external effects it performed. -/
structure SaveResult where
  returned : String
  effects : List Effect
deriving Repr

/-- `save_response_to_file_and_db` (src/response_agent/agent.py lines 74-100).
The module-level `db` is `None` when Firebase/Firestore initialization failed
(lines 65-72), modelled as the `db : Option FirestoreClient` parameter.  The
body mirrors the source: inside `try`, when `db` is a Firestore client one
document is added to collection `'agent_responses'`, and then the fixed
success string is returned — also when `db` is `None`, since the `return`
sits outside the `isinstance` guard; the catch-all `except` turns an
exception `e` raised by the write into the error string carrying `str(e)`. -/
def save_response_to_file_and_db (db : Option FirestoreClient)
    (response_content : String) (agent_name : String) : SaveResult :=
  match db with
  | none =>
    { returned := "Successfully saved response from " ++ agent_name
        ++ " to Firebase database."
      effects := [] }
  | some client =>
    let doc : DocRecord :=
      { collection := "agent_responses", agent_name := agent_name,
        response_content := response_content }
    match client.addResult doc with
    | Except.ok _docId =>
      { returned := "Successfully saved response from " ++ agent_name
          ++ " to Firebase database."
        effects := [Effect.firestoreAdd doc] }
    | Except.error e =>
      { returned := "Error saving response from " ++ agent_name
          ++ " to Firebase database: " ++ e
        effects := [] }

/-- A worker of the parallel phase: the `name` and `output_key` of one
`LlmAgent` (src/response_agent/agent.py lines 102-124). -/
structure Worker where
  name : String
  output_key : String
deriving DecidableEq, Repr

/-- `agent_ceo_parallel` (src/response_agent/agent.py lines 102-108). -/
def agent_ceo_parallel : Worker :=
  { name := "CEO", output_key := "ceo_response" }

/-- `agent_senior_manager_parallel` (src/response_agent/agent.py lines
110-116). -/
def agent_senior_manager_parallel : Worker :=
  { name := "Senior_Manager", output_key := "manager_response" }

/-- `agent_specialist_parallel` (src/response_agent/agent.py lines 118-124). -/
def agent_specialist_parallel : Worker :=
  { name := "Specialist", output_key := "specialist_response" }

/-- The member list of the `ConcurrentFetch` `ParallelAgent`
(src/response_agent/agent.py lines 126-129). -/
def gather_concurrently : List Worker :=
  [agent_ceo_parallel, agent_senior_manager_parallel, agent_specialist_parallel]

/-- Terminal state of one worker: success with its text, or failure. -/
inductive WorkerOutcome where
  | success (text : String)
  | failure (message : String)
deriving DecidableEq, Repr

/-- Modelled from the spec: the join barrier of `ParallelAgent.run` — the
google.adk library code behind `ConcurrentFetch` is not part of this
repository, only its configuration is (src/response_agent/agent.py lines
126-129).  Per spec §4.1 the group launches every member, waits for all of
them to reach a terminal state, and records each member's outcome under its
`output_key`; members may finish in any order, modelled by evaluating the
members along an arbitrary completion `order`. -/
def runBarrierGroup (run : Worker → WorkerOutcome) (order : List Worker) :
    List (String × WorkerOutcome) :=
  order.map fun w => (w.output_key, run w)

/-! ### Helper lemmas about the multiplexer -/

example :
    processEvents [mkPartialTextEvent "ab", mkPartialTextEvent "c",
      mkTurnCompleteEvent] ""
      = [Frame.message "abc", Frame.turnComplete] := by decide

example :
    processEvents [mkPartialTextEvent "ab", mkInterruptedEvent] ""
      = [Frame.message "ab", Frame.interruptedTurnComplete] := by decide

example : processEvents [mkPartialTextEvent "ab"] ""
      = [Frame.messageTurnComplete "ab"] := by decide

example : processEvents [] "" = [Frame.turnComplete] := by decide

theorem bufferStep_mkPartialTextEvent (t : String) (buffer : String) :
    bufferStep (mkPartialTextEvent t) buffer = buffer ++ t := by
  by_cases h : t = "" <;>
    simp [bufferStep, mkPartialTextEvent, h, String.append_empty]

theorem processEvents_partialText_chain (ts : List String) (es : List Event)
    (buffer : String) :
    processEvents (ts.map mkPartialTextEvent ++ es) buffer
      = processEvents es (buffer ++ concatFragments ts) := by
  induction ts generalizing buffer with
  | nil => simp [concatFragments, String.append_empty]
  | cons t ts ih =>
    have h1 : processEvents ((mkPartialTextEvent t :: ts.map mkPartialTextEvent)
          ++ es) buffer
        = processEvents (ts.map mkPartialTextEvent ++ es)
            (bufferStep (mkPartialTextEvent t) buffer) := rfl
    rw [List.map_cons, h1, bufferStep_mkPartialTextEvent, ih, concatFragments,
      String.append_assoc]

theorem hasTurnCompleteFlag_message (s : String) :
    (Frame.message s).hasTurnCompleteFlag = false := rfl

theorem messageText_message (s : String) :
    (Frame.message s).messageText = s := rfl

theorem terminalFrameCount_flush_marker (buffer : String) (f : Frame)
    (hf : f.hasTurnCompleteFlag = true) :
    terminalFrameCount (flushFrames buffer ++ [f]) = 1 := by
  by_cases h : buffer = "" <;>
    simp [flushFrames, terminalFrameCount, h, hf,
      List.filter_cons, List.filter_nil, hasTurnCompleteFlag_message]

theorem terminalFrameCount_processEvents (es : List Event) (buffer : String) :
    terminalFrameCount (processEvents es buffer) = 1 := by
  induction es generalizing buffer with
  | nil =>
    by_cases h : buffer = "" <;>
      simp [processEvents, terminalFrameCount, h, Frame.hasTurnCompleteFlag]
  | cons e rest ih =>
    rw [processEvents]
    by_cases h1 : e.turn_complete = true
    · rw [if_pos h1]; exact terminalFrameCount_flush_marker _ _ rfl
    · rw [if_neg h1]
      by_cases h2 : e.interrupted = true
      · rw [if_pos h2]; exact terminalFrameCount_flush_marker _ _ rfl
      · rw [if_neg h2]; exact ih _

theorem flushedText_flush_marker (buffer : String) (f : Frame)
    (hf : f.messageText = "") :
    flushedText (flushFrames buffer ++ [f]) = buffer := by
  by_cases h : buffer = "" <;>
    simp [flushFrames, flushedText, h, hf, messageText_message,
      String.append_empty, String.empty_append]

/-! ### The claims -/

/-- C1: for every finite sequence of partial-text events followed by one
terminal event (an event with `turn_complete` or `interrupted` set), the
multiplexer `process_and_send_agent_events` sends exactly one terminal frame
(a frame with `turn_complete` set), and the concatenation of all message text
it flushes equals the concatenation of the text fragments carried by the
input events. -/
theorem multiplexer_lossless_reassembly (ts : List String) (e : Event)
    (h : e.turn_complete = true ∨ e.interrupted = true) :
    terminalFrameCount (processEvents (ts.map mkPartialTextEvent ++ [e]) "") = 1
    ∧ flushedText (processEvents (ts.map mkPartialTextEvent ++ [e]) "")
        = concatFragments ts := by
  refine ⟨terminalFrameCount_processEvents _ _, ?_⟩
  rw [processEvents_partialText_chain, String.empty_append]
  by_cases h1 : e.turn_complete = true
  · rw [processEvents, if_pos h1]
    exact flushedText_flush_marker _ _ rfl
  · rcases h with h | h2
    · exact absurd h h1
    · rw [processEvents, if_neg h1, if_pos h2]
      exact flushedText_flush_marker _ _ rfl

/-- Witness for C1 at the fragments `["Hello, ", "world"]` followed by a
turn-complete event. -/
theorem multiplexer_lossless_reassembly_witness :
    (mkTurnCompleteEvent.turn_complete = true
      ∨ mkTurnCompleteEvent.interrupted = true)
    ∧ (terminalFrameCount (processEvents
          (["Hello, ", "world"].map mkPartialTextEvent
            ++ [mkTurnCompleteEvent]) "") = 1
       ∧ flushedText (processEvents
            (["Hello, ", "world"].map mkPartialTextEvent
              ++ [mkTurnCompleteEvent]) "")
          = concatFragments ["Hello, ", "world"]) :=
  ⟨Or.inl rfl,
    multiplexer_lossless_reassembly ["Hello, ", "world"] mkTurnCompleteEvent
      (Or.inl rfl)⟩

/-- C5: on a `turn_complete` event the multiplexer flushes any buffered text
as a `{"message": ...}` frame and then sends the `{"turn_complete": true}`
marker, ignoring the rest of the stream; when the event stream ends instead,
a non-empty buffer is flushed as the single combined
`{"message": ..., "turn_complete": true}` frame and an empty buffer yields
the bare marker; and every processed stream — in particular a turn that
produced no text — results in exactly one frame with `turn_complete` set. -/
theorem multiplexer_turn_complete_marker (buffer : String) (rest : List Event)
    (intr : Bool) (c : Option MContent) (pf : Bool) (es : List Event) :
    processEvents ((⟨true, intr, c, pf⟩ : Event) :: rest) buffer
      = flushFrames buffer ++ [Frame.turnComplete]
    ∧ processEvents [] buffer
      = (if buffer = "" then [Frame.turnComplete]
         else [Frame.messageTurnComplete buffer])
    ∧ terminalFrameCount (processEvents es buffer) = 1 :=
  ⟨rfl, rfl, terminalFrameCount_processEvents es buffer⟩

/-- C6: on an `interrupted` event (that is not also `turn_complete`, which the
code checks first) the multiplexer flushes any buffered partial text as a
`{"message": ...}` frame, then sends the frame carrying both the
`interrupted` and the `turn_complete` flags, and — exactly as for completion —
the rest of the stream is not processed: the result does not depend on
`rest`. -/
theorem multiplexer_interrupted_marker (buffer : String) (rest : List Event)
    (c : Option MContent) (pf : Bool) :
    processEvents ((⟨false, true, c, pf⟩ : Event) :: rest) buffer
      = flushFrames buffer ++ [Frame.interruptedTurnComplete]
    ∧ Frame.interruptedTurnComplete.hasInterruptedFlag = true
    ∧ Frame.interruptedTurnComplete.hasTurnCompleteFlag = true :=
  ⟨rfl, rfl, rfl⟩

/-- C9: a non-terminal event changes only the buffer, through `bufferStep`;
an event not marked `partial` contributes nothing to the buffer (its text is
discarded); content parts beyond the first are ignored; and a partial event
appends exactly the non-empty text of its first part. -/
theorem multiplexer_buffering_discipline (buffer : String) (rest : List Event)
    (c : Option MContent) (pf : Bool) (p : MPart) (extra : List MPart)
    (t : String) :
    processEvents ((⟨false, false, c, pf⟩ : Event) :: rest) buffer
      = processEvents rest (bufferStep (⟨false, false, c, pf⟩ : Event) buffer)
    ∧ bufferStep (⟨false, false, c, false⟩ : Event) buffer = buffer
    ∧ bufferStep (⟨false, false, some ⟨p :: extra⟩, pf⟩ : Event) buffer
      = bufferStep (⟨false, false, some ⟨[p]⟩, pf⟩ : Event) buffer
    ∧ bufferStep (⟨false, false, some ⟨⟨some t⟩ :: extra⟩, true⟩ : Event) buffer
      = (if t = "" then buffer else buffer ++ t)
    ∧ bufferStep (⟨false, false, none, pf⟩ : Event) buffer = buffer := by
  refine ⟨rfl, ?_, ?_, rfl, rfl⟩
  · rcases c with _ | ⟨_ | ⟨p', ps⟩⟩ <;> rfl
  · cases pf <;> rfl

/-- C7: the per-connection loop serializes turns: the trace of a connection is
the received message, then all frames of that turn, then the trace of the
remaining turns — the next message is read only after the turn's processing
finished; each turn's frame sequence contains exactly one terminal frame; and
within a turn the flushed text is the order-preserving concatenation of the
fragments the orchestrator produced. -/
theorem websocket_turns_serialized (msg : String) (events : List Event)
    (rest : List (String × List Event)) (ts : List String) :
    sessionLoop ((msg, events) :: rest)
      = TraceItem.received msg
          :: ((processEvents events "").map TraceItem.sent ++ sessionLoop rest)
    ∧ terminalFrameCount (processEvents events "") = 1
    ∧ flushedText (processEvents
          (ts.map mkPartialTextEvent ++ [mkTurnCompleteEvent]) "")
        = concatFragments ts := by
  refine ⟨rfl, terminalFrameCount_processEvents _ _, ?_⟩
  rw [processEvents_partialText_chain, String.empty_append]
  have h1 : processEvents [mkTurnCompleteEvent] (concatFragments ts)
      = flushFrames (concatFragments ts) ++ [Frame.turnComplete] := rfl
  rw [h1]
  exact flushedText_flush_marker _ _ rfl

/-- C2, counterexample: with the storage backend not configured (`db = none`),
`save_response_to_file_and_db "hello" "CEO"` performs no write yet returns the
unconditional success message — not a degraded 'not available' outcome: the
`return` of the success string sits outside the `isinstance(db, ...)` guard
(src/response_agent/agent.py line 97), so the claim fails at this input. -/
theorem save_without_backend_reports_success :
    (save_response_to_file_and_db none "hello" "CEO").returned
      = "Successfully saved response from CEO to Firebase database."
    ∧ (save_response_to_file_and_db none "hello" "CEO").effects = [] :=
  ⟨rfl, rfl⟩

/-- C2, amended: for every invocation of the persistence tool when the storage
backend is not configured (`db = none`), the invocation does not crash (it
returns a `SaveResult` for every input) and performs no write, but it returns
the unconditional success message "Successfully saved response from
{agent_name} to Firebase database." rather than a degraded 'not available'
outcome. -/
theorem save_without_backend_no_crash_no_write (response_content : String)
    (agent_name : String) :
    (save_response_to_file_and_db none response_content agent_name).returned
      = "Successfully saved response from " ++ agent_name
          ++ " to Firebase database."
    ∧ (save_response_to_file_and_db none response_content agent_name).effects
      = [] :=
  ⟨rfl, rfl⟩

/-- C4: for every input and every behavior of the external write — including
every failing one, `addResult = .error e` standing for any exception the write
raises — `save_response_to_file_and_db` returns an outcome string (the model
is a total function: the catch-all `except` lets no exception escape), and
that string is either the success message or the error message carrying the
human-readable reason `str(e)` of the write's failure. -/
theorem save_tool_catches_all_failures (db : Option FirestoreClient)
    (response_content : String) (agent_name : String) :
    (save_response_to_file_and_db db response_content agent_name).returned
      = "Successfully saved response from " ++ agent_name
          ++ " to Firebase database."
    ∨ (∃ client e, db = some client
        ∧ client.addResult ⟨"agent_responses", agent_name, response_content⟩
          = Except.error e
        ∧ (save_response_to_file_and_db db response_content
              agent_name).returned
          = "Error saving response from " ++ agent_name
              ++ " to Firebase database: " ++ e) := by
  match db with
  | none => exact Or.inl rfl
  | some client =>
    match h : client.addResult ⟨"agent_responses", agent_name,
        response_content⟩ with
    | Except.ok id =>
      exact Or.inl (by simp [save_response_to_file_and_db, h])
    | Except.error e =>
      exact Or.inr ⟨client, e, rfl, h,
        by simp [save_response_to_file_and_db, h]⟩

/-- C10: per invocation, the persistence tool performs at most one external
effect, and when it performs one it is a single document add to the Firestore
collection 'agent_responses' carrying exactly this call's agent name and
response content (each call adds a new independent document); it never
performs a `fileWrite`, despite the tool's name and docstring. -/
theorem save_tool_frame_effects (db : Option FirestoreClient)
    (response_content : String) (agent_name : String) :
    ((save_response_to_file_and_db db response_content agent_name).effects = []
     ∨ (save_response_to_file_and_db db response_content agent_name).effects
        = [Effect.firestoreAdd
            ⟨"agent_responses", agent_name, response_content⟩])
    ∧ (save_response_to_file_and_db db response_content
        agent_name).effects.length ≤ 1 := by
  match db with
  | none => exact ⟨Or.inl rfl, by simp [save_response_to_file_and_db]⟩
  | some client =>
    match h : client.addResult ⟨"agent_responses", agent_name,
        response_content⟩ with
    | Except.ok id =>
      refine ⟨Or.inr ?_, ?_⟩ <;> simp [save_response_to_file_and_db, h]
    | Except.error e =>
      refine ⟨Or.inl ?_, ?_⟩ <;> simp [save_response_to_file_and_db, h]

/-- C8: join completeness of the Barrier Group (modelled from the spec, since
`ParallelAgent.run` is google.adk library code): however the three members of
`ConcurrentFetch` are scheduled — for every completion order, i.e. every
permutation of the member list — the group's result records a terminal
outcome for every member under that member's `output_key`, and has exactly as
many entries as the group has members: the group returns only after all
members reached a terminal state. -/
theorem barrier_group_join_completeness (run : Worker → WorkerOutcome)
    (order : List Worker) (hperm : order.Perm gather_concurrently)
    (w : Worker) (hw : w ∈ gather_concurrently) :
    (w.output_key, run w) ∈ runBarrierGroup run order
    ∧ (runBarrierGroup run order).length = gather_concurrently.length := by
  constructor
  · exact List.mem_map_of_mem _ (hperm.mem_iff.mpr hw)
  · simp [runBarrierGroup, hperm.length_eq]

/-- Witness for C8: the completion order Specialist, CEO, Senior_Manager is a
permutation of the member list, and the CEO member's outcome is recorded
under "ceo_response" in a result of full length. -/
theorem barrier_group_join_completeness_witness :
    ([agent_specialist_parallel, agent_ceo_parallel,
        agent_senior_manager_parallel].Perm gather_concurrently)
    ∧ agent_ceo_parallel ∈ gather_concurrently
    ∧ ((agent_ceo_parallel.output_key, WorkerOutcome.success "ok")
        ∈ runBarrierGroup (fun _ => WorkerOutcome.success "ok")
            [agent_specialist_parallel, agent_ceo_parallel,
              agent_senior_manager_parallel]
       ∧ (runBarrierGroup (fun _ => WorkerOutcome.success "ok")
            [agent_specialist_parallel, agent_ceo_parallel,
              agent_senior_manager_parallel]).length
          = gather_concurrently.length) :=
  ⟨by decide, by decide,
    barrier_group_join_completeness (fun _ => WorkerOutcome.success "ok")
      [agent_specialist_parallel, agent_ceo_parallel,
        agent_senior_manager_parallel] (by decide)
      agent_ceo_parallel (by decide)⟩

end ADKWeb
